import Mathlib

/-!
Verification of the `POST /api/check-ssl` endpoint of
`src/backend/scripts/ssl_api.py` (Flask), together with a model of the
`SSLChecker` prober that the endpoint imports from `ssl_checker`, a module of
this repository that is not among the provided sources.  The prober and its
classification policy are therefore modelled from the specification
(sections 3, 4.1 and 7 of spec.md); the HTTP handler itself is embedded
directly from the Python source.

The embedding is shallow: JSON values are an inductive type, the handler is a
pure function from the (already parsed or unparseable) request body to an HTTP
response, and Python exceptions raised inside the handler's `try` block are
represented with `Except`.  Timestamps are integer seconds, as the claims only
involve comparisons and differences of times.
-/

/-- A JSON value as produced by Flask's `request.get_json()`.  Numbers are
modelled as integers (no claim involves fractional numbers).  An object is the
parsed key/value list; `json.loads` yields unique keys, with `getKey` below
implementing lookup. -/
inductive JsonVal where
  | null : JsonVal
  | bool (b : Bool) : JsonVal
  | num (n : Int) : JsonVal
  | str (s : String) : JsonVal
  | arr (xs : List JsonVal) : JsonVal
  | obj (kvs : List (String × JsonVal)) : JsonVal

/-- Python truthiness of a JSON value, as tested by `if not data`:
`None`, `False`, `0`, `""`, `[]` and `{}` are falsy, everything else truthy. -/
def JsonVal.truthy : JsonVal → Bool
  | .null => false
  | .bool b => b
  | .num n => n != 0
  | .str s => s != ""
  | .arr xs => !xs.isEmpty
  | .obj kvs => !kvs.isEmpty

/-- Whether a JSON value is the exact string "hosts" (Python `==` against the
string `'hosts'`; a string compares equal only to an equal string). -/
def JsonVal.isHostsStr : JsonVal → Bool
  | .str "hosts" => true
  | _ => false

/-- Whether the string `pat` occurs as a contiguous substring of `s`
(Python `pat in s` for strings). -/
def strContainsSub (s pat : String) : Bool :=
  (List.range (s.length + 1)).any (fun i => pat.isPrefixOf (s.drop i))

/-- First-match lookup of a key in a parsed JSON object (Python `data[key]`
on a dict; keys of a parsed object are unique). -/
def getKey : List (String × JsonVal) → String → Option JsonVal
  | [], _ => none
  | (k, v) :: rest, key => if k = key then some v else getKey rest key

/-- Python `'hosts' in data` for an arbitrary JSON value: key membership for a
dict, element membership for a list, substring test for a string, and a
`TypeError` (modelled as `Except.error` carrying `str(e)`) for the remaining
types, which are not iterable.  `null` is falsy, so its error branch is
unreachable in the handler. -/
def JsonVal.containsHosts : JsonVal → Except String Bool
  | .obj kvs => .ok (kvs.any (fun kv => kv.1 = "hosts"))
  | .arr xs => .ok (xs.any JsonVal.isHostsStr)
  | .str s => .ok (strContainsSub s "hosts")
  | .null => .error "argument of type 'NoneType' is not iterable"
  | .bool _ => .error "argument of type 'bool' is not iterable"
  | .num _ => .error "argument of type 'int' is not iterable"

/-- Python `data['hosts']`: dict lookup for an object (the handler only
evaluates it after `'hosts' in data` succeeded, so the `KeyError` branch is
unreachable there), and a `TypeError` for every other type: subscripting a
list or a string with a string key raises, as does subscripting a
non-subscriptable value. -/
def JsonVal.getHostsItem : JsonVal → Except String JsonVal
  | .obj kvs =>
    match getKey kvs "hosts" with
    | some v => .ok v
    | none => .error "'hosts'"
  | .arr _ => .error "list indices must be integers or slices, not str"
  | .str _ => .error "string indices must be integers"
  | .null => .error "'NoneType' object is not subscriptable"
  | .bool _ => .error "'bool' object is not subscriptable"
  | .num _ => .error "'int' object is not subscriptable"

/-- The list normalization `if not isinstance(hosts, list): hosts = [hosts]`:
a JSON array is taken as is, any other value becomes a one-element list. -/
def normalizeHosts : JsonVal → List JsonVal
  | .arr xs => xs
  | v => [v]

/-- An HTTP response: numeric status code and JSON body, as produced by
`jsonify(...)` (default status 200) or `jsonify(...), code`. -/
structure Response where
  status : Nat
  body : JsonVal

/-- Response of the `return jsonify({'error': 'Missing hosts in request body'}), 400` line. -/
def resp400 : Response :=
  ⟨400, .obj [("error", .str "Missing hosts in request body")]⟩

/-- Response of the `except` clause:
`jsonify({'success': False, 'error': str(e)}), 500`. -/
def resp500 (msg : String) : Response :=
  ⟨500, .obj [("success", .bool false), ("error", .str msg)]⟩

/-- Response of the success path:
`jsonify({'success': True, 'results': results})` (status 200). -/
def resp200 (results : List JsonVal) : Response :=
  ⟨200, .obj [("success", .bool true), ("results", .arr results)]⟩

/-- Message of the `werkzeug` `BadRequest` exception that
`request.get_json()` raises inside the `try` block when the request body is
not valid JSON; caught by `except Exception as e` and rendered via `str(e)`. -/
def badRequestMsg : String :=
  "400 Bad Request: The browser (or proxy) sent a request that this server could not understand."

/-- The `for host in hosts` loop calling `ssl_checker.get_certificate_info`.
Returns the accumulated results, the trace of hosts actually passed to the
prober, and the first raised exception if any (at which point the loop is
abandoned and the accumulated results are discarded by the `except` clause). -/
def probeAll (p : JsonVal → Except String JsonVal) :
    List JsonVal → List JsonVal × List JsonVal × Option String
  | [] => ([], [], none)
  | h :: hs =>
    match p h with
    | .error m => ([], [h], some m)
    | .ok r =>
      let rest := probeAll p hs
      (r :: rest.1, h :: rest.2.1, rest.2.2)

/-- The body of `check_ssl` in `ssl_api.py`, instrumented: besides the HTTP
response it returns whether the line `ssl_checker = SSLChecker()` was reached
(a fresh checker constructed) and the trace of hosts passed to
`get_certificate_info`.  The argument `body` is `none` when the request body
is not valid JSON (in which case `request.get_json()` raises inside `try`),
and `some data` otherwise.  The prober `p` is abstract; `Except.error`
models an exception escaping `get_certificate_info`. -/
def checkSslT (p : JsonVal → Except String JsonVal) (body : Option JsonVal) :
    Response × Bool × List JsonVal :=
  match body with
  | none => (resp500 badRequestMsg, false, [])
  | some data =>
    if data.truthy = false then (resp400, false, [])
    else
      match data.containsHosts with
      | .error m => (resp500 m, false, [])
      | .ok false => (resp400, false, [])
      | .ok true =>
        match data.getHostsItem with
        | .error m => (resp500 m, false, [])
        | .ok hv =>
          match probeAll p (normalizeHosts hv) with
          | (rs, probed, none) => (resp200 rs, true, probed)
          | (_, probed, some m) => (resp500 m, true, probed)

/-- The observable behaviour of `check_ssl`: request body in, HTTP response
out. -/
def checkSsl (p : JsonVal → Except String JsonVal) (body : Option JsonVal) :
    Response :=
  (checkSslT p body).1

/-- A prober that never raises: every per-host outcome is returned as data.
This is the shape the specification requires of `SSLChecker` (its failures
are recovered locally and encoded in the result). -/
def totalProbe (q : JsonVal → JsonVal) : JsonVal → Except String JsonVal :=
  fun h => .ok (q h)

/-- Modelled from the spec: the structured certificate metadata of section 3
(the `SSLChecker` sources are not provided).  Validity timestamps are integer
seconds; the subject and issuer are distinguished-name strings. -/
structure CertificateInfo where
  subject : String
  issuer : String
  serial : Nat
  notBefore : Int
  notAfter : Int
  sigAlg : String
  sans : List String
  pubKeyAlg : String
  pubKeyBits : Nat
deriving DecidableEq

/-- Modelled from the spec: the per-host result status of section 3. -/
inductive Status where
  | ok
  | expiringSoon
  | expired
  | selfSigned
  | unreachable
  | handshakeError
  | timeout
deriving DecidableEq

/-- The wire name of a status, as listed in section 3 of the spec. -/
def Status.name : Status → String
  | .ok => "ok"
  | .expiringSoon => "expiring_soon"
  | .expired => "expired"
  | .selfSigned => "self_signed"
  | .unreachable => "unreachable"
  | .handshakeError => "handshake_error"
  | .timeout => "timeout"

/-- Modelled from the spec: the classification policy of section 4.1, applied
to a successfully retrieved certificate; a pure function of
`(CertificateInfo, now, threshold)`.  In order: `expired` if the current time
is past not-after; `expiring_soon` if not-after minus now is below the
threshold; `self_signed` if issuer equals subject (the spec's additional
"no trusted chain was established" qualifier is not representable in
`CertificateInfo`, and the spec simultaneously requires classification to
depend on `CertificateInfo`, `now` and `threshold` only); `ok` otherwise. -/
def classify (c : CertificateInfo) (now threshold : Int) : Status :=
  if c.notAfter < now then .expired
  else if c.notAfter - now < threshold then .expiringSoon
  else if c.issuer = c.subject then .selfSigned
  else .ok

/-- Modelled from the spec: the outcome of one per-host probe of section 4.1
(the `SSLChecker` sources are not provided).  Either the leaf certificate was
retrieved, or a network/timeout/handshake failure occurred; every failure is
an outcome, never an exception. -/
inductive ProbeOutcome where
  | cert (c : CertificateInfo)
  | unreachable (msg : String)
  | handshakeError (msg : String)
  | timeout

/-- Modelled from the spec: the per-host probe result of section 3: the
originating host, a status, the certificate when one was retrieved, and an
error message for network-level failures. -/
structure ProbeResult where
  host : String
  status : Status
  certificate : Option CertificateInfo
  error : Option String

/-- Modelled from the spec: turn a probe outcome into a `ProbeResult` (the
propagation policy of section 7: every per-host failure is recovered locally
and turned into data).  A retrieved certificate is classified with
`classify`. -/
def probeResultOf (host : String) (o : ProbeOutcome) (now threshold : Int) :
    ProbeResult :=
  match o with
  | .cert c => ⟨host, classify c now threshold, some c, none⟩
  | .unreachable m => ⟨host, .unreachable, none, some m⟩
  | .handshakeError m => ⟨host, .handshakeError, none, some m⟩
  | .timeout => ⟨host, .timeout, none, none⟩

/-- JSON serialization of `CertificateInfo`, field for field. -/
def CertificateInfo.toJson (c : CertificateInfo) : JsonVal :=
  .obj [("subject", .str c.subject), ("issuer", .str c.issuer),
        ("serial", .num c.serial), ("not_before", .num c.notBefore),
        ("not_after", .num c.notAfter),
        ("signature_algorithm", .str c.sigAlg),
        ("sans", .arr (c.sans.map JsonVal.str)),
        ("public_key_algorithm", .str c.pubKeyAlg),
        ("public_key_bits", .num c.pubKeyBits)]

/-- JSON serialization of `ProbeResult`; optional fields become `null`. -/
def ProbeResult.toJson (r : ProbeResult) : JsonVal :=
  .obj [("host", .str r.host), ("status", .str r.status.name),
        ("certificate",
          match r.certificate with
          | some c => c.toJson
          | none => .null),
        ("error",
          match r.error with
          | some m => .str m
          | none => .null)]

/-- The hostname a JSON host value denotes: the string itself for a JSON
string.  The spec's prober takes hostnames; non-string values are mapped to
the empty hostname (the theorems below only apply the spec prober to string
hosts). -/
def hostStr : JsonVal → String
  | .str s => s
  | _ => ""

/-- Modelled from the spec: `SSLChecker.get_certificate_info` as the spec
constrains it, parameterized by the per-host network outcome `net` and the
clock and threshold configuration.  It is total: every per-host failure is
returned as data (`ProbeResult`), serialized to JSON. -/
def specProbe (net : String → ProbeOutcome) (now threshold : Int) :
    JsonVal → Except String JsonVal :=
  totalProbe (fun h =>
    (probeResultOf (hostStr h) (net (hostStr h)) now threshold).toJson)

/-- The endpoint handling a sequence of independent requests, one response
per request.  The Python module holds no mutable module-level state (the
`Flask` app object only routes; `SSLChecker()` is constructed inside the
handler), so serving a sequence is embedding each request independently. -/
def serveAll (p : JsonVal → Except String JsonVal) :
    List (Option JsonVal) → List Response
  | [] => []
  | b :: bs => checkSsl p b :: serveAll p bs

/-- A self-signed certificate (issuer equal to subject) expiring 100 days
(8640000 s) after time 0. -/
def selfSignedFar : CertificateInfo :=
  ⟨"CN=X", "CN=X", 1, 0, 8640000, "sha256RSA", [], "RSA", 2048⟩

/-- A key found by `getKey` makes the object non-empty, hence truthy. -/
lemma truthy_obj_of_getKey (kvs : List (String × JsonVal)) (k : String)
    (v : JsonVal) (h : getKey kvs k = some v) :
    (JsonVal.obj kvs).truthy = true := by
  cases kvs with
  | nil => simp [getKey] at h
  | cons hd tl => simp [JsonVal.truthy, List.isEmpty]

/-- A key found by `getKey` is seen by the membership scan. -/
lemma any_key_of_getKey (kvs : List (String × JsonVal)) (k : String)
    (v : JsonVal) (h : getKey kvs k = some v) :
    kvs.any (fun kv => kv.1 = k) = true := by
  induction kvs with
  | nil => simp [getKey] at h
  | cons hd tl ih =>
    obtain ⟨k1, v1⟩ := hd
    by_cases hk : k1 = k
    · simp [List.any, hk]
    · simp only [getKey, if_neg hk] at h
      simp [List.any, ih h]

/-- Membership of "hosts" in an object that `getKey` resolves. -/
lemma containsHosts_of_getKey (kvs : List (String × JsonVal)) (v : JsonVal)
    (h : getKey kvs "hosts" = some v) :
    (JsonVal.obj kvs).containsHosts = .ok true := by
  simp [JsonVal.containsHosts, any_key_of_getKey kvs "hosts" v h]

/-- Subscripting an object that `getKey` resolves. -/
lemma getHostsItem_of_getKey (kvs : List (String × JsonVal)) (v : JsonVal)
    (h : getKey kvs "hosts" = some v) :
    (JsonVal.obj kvs).getHostsItem = .ok v := by
  simp [JsonVal.getHostsItem, h]

/-- Reduction of the handler on an object body whose "hosts" key resolves:
control reaches the probe loop. -/
lemma checkSslT_obj (p : JsonVal → Except String JsonVal)
    (kvs : List (String × JsonVal)) (hv : JsonVal)
    (hk : getKey kvs "hosts" = some hv) :
    checkSslT p (some (.obj kvs)) =
      match probeAll p (normalizeHosts hv) with
      | (rs, probed, none) => (resp200 rs, true, probed)
      | (_, probed, some m) => (resp500 m, true, probed) := by
  simp [checkSslT, truthy_obj_of_getKey kvs "hosts" hv hk,
    containsHosts_of_getKey kvs hv hk, getHostsItem_of_getKey kvs hv hk]

/-- A total prober's loop probes every host, collects every result in order,
and raises nothing. -/
lemma probeAll_total (q : JsonVal → JsonVal) (hs : List JsonVal) :
    probeAll (totalProbe q) hs = (hs.map q, hs, none) := by
  induction hs with
  | nil => rfl
  | cons h t ih => simp [probeAll, totalProbe, ih]

/-- Full reduction of the handler on an object body with a resolving "hosts"
key and a never-raising prober. -/
lemma checkSslT_total (q : JsonVal → JsonVal)
    (kvs : List (String × JsonVal)) (hv : JsonVal)
    (hk : getKey kvs "hosts" = some hv) :
    checkSslT (totalProbe q) (some (.obj kvs)) =
      (resp200 ((normalizeHosts hv).map q), true, normalizeHosts hv) := by
  rw [checkSslT_obj _ _ _ hk, probeAll_total]

/-- C1: for every request whose (object) body has a `hosts` value, probed
with a prober that turns every per-host outcome into data (the spec's
`SSLChecker` contract), the endpoint returns 200 with exactly one result per
input host, in input order: the result list is the pointwise image of the
normalized host list, so lengths agree and the i-th result is the probe
result of the i-th host. -/
theorem c1_results_match_hosts (q : JsonVal → JsonVal)
    (kvs : List (String × JsonVal)) (hv : JsonVal)
    (hk : getKey kvs "hosts" = some hv) :
    checkSsl (totalProbe q) (some (.obj kvs)) =
      resp200 ((normalizeHosts hv).map q) ∧
    ((normalizeHosts hv).map q).length = (normalizeHosts hv).length ∧
    ∀ i : Nat, ((normalizeHosts hv).map q)[i]? =
      ((normalizeHosts hv)[i]?).map q := by
  refine ⟨?_, List.length_map _ _, fun i => List.getElem?_map ..⟩
  simp [checkSsl, checkSslT_total q kvs hv hk]

/-- C1 witness: a concrete two-host request. -/
theorem c1_results_match_hosts_witness :
    checkSsl (totalProbe (fun v => v))
        (some (.obj [("hosts", .arr [.str "a", .str "b"])])) =
      resp200 [.str "a", .str "b"] :=
  (c1_results_match_hosts (fun v => v) [("hosts", .arr [.str "a", .str "b"])]
    (.arr [.str "a", .str "b"]) rfl).1

/-- C2: with the spec-modelled prober (every network outcome recovered into a
`ProbeResult`), a request with a list of string hosts always yields HTTP 200
— the batch call cannot fail because of any host's condition — and the i-th
result is a function of the i-th host's own outcome alone, so a failure on
one host never aborts the batch nor affects any other host's result. -/
theorem c2_failures_become_data (net : String → ProbeOutcome)
    (now threshold : Int) (kvs : List (String × JsonVal)) (vs : List String)
    (hk : getKey kvs "hosts" = some (.arr (vs.map JsonVal.str))) :
    checkSsl (specProbe net now threshold) (some (.obj kvs)) =
      resp200 (vs.map (fun s => (probeResultOf s (net s) now threshold).toJson)) ∧
    (checkSsl (specProbe net now threshold) (some (.obj kvs))).status = 200 ∧
    ∀ i : Nat,
      (vs.map (fun s => (probeResultOf s (net s) now threshold).toJson))[i]? =
        (vs[i]?).map (fun s => (probeResultOf s (net s) now threshold).toJson) := by
  have h1 : checkSsl (specProbe net now threshold) (some (.obj kvs)) =
      resp200 (vs.map (fun s => (probeResultOf s (net s) now threshold).toJson)) := by
    show (checkSslT _ _).1 = _
    rw [specProbe, checkSslT_total _ kvs _ hk]
    simp only [normalizeHosts, List.map_map]
    rfl
  exact ⟨h1, by rw [h1]; rfl, fun i => List.getElem?_map ..⟩

/-- C2 witness: one unreachable host between two live ones; the batch
succeeds and each result reflects only its own host. -/
theorem c2_failures_become_data_witness :
    checkSsl
        (specProbe
          (fun s => if s = "b" then .unreachable "connection refused"
                    else .cert ⟨"CN=a", "CN=i", 1, 0, 10000000, "x", [], "RSA", 2048⟩)
          0 2592000)
        (some (.obj [("hosts", .arr [.str "a", .str "b", .str "c"])])) =
      resp200
        [(probeResultOf "a" (.cert ⟨"CN=a", "CN=i", 1, 0, 10000000, "x", [], "RSA", 2048⟩) 0 2592000).toJson,
         (probeResultOf "b" (.unreachable "connection refused") 0 2592000).toJson,
         (probeResultOf "c" (.cert ⟨"CN=a", "CN=i", 1, 0, 10000000, "x", [], "RSA", 2048⟩) 0 2592000).toJson] := by
  have h := (c2_failures_become_data
    (fun s => if s = "b" then .unreachable "connection refused"
              else .cert ⟨"CN=a", "CN=i", 1, 0, 10000000, "x", [], "RSA", 2048⟩)
    0 2592000 [("hosts", .arr [.str "a", .str "b", .str "c"])]
    ["a", "b", "c"] rfl).1
  simpa using h

/-- C3 counterexample: an unparseable request body does not produce the
documented 400 response.  `request.get_json()` raises `BadRequest` inside the
`try` block, the catch-all `except Exception` converts it to HTTP 500 with
`{"success": false, "error": str(e)}`. -/
theorem c3_invalid_json_counterexample :
    (checkSsl (totalProbe (fun v => v)) none).status = 500 ∧
    (checkSsl (totalProbe (fun v => v)) none).status ≠ 400 ∧
    checkSsl (totalProbe (fun v => v)) none = resp500 badRequestMsg := by
  refine ⟨rfl, by decide, rfl⟩

/-- C3 amended: when the body parses but `hosts` is missing — the body is
falsy (e.g. `{}`, the empty object) or lacks a "hosts" member — the endpoint
returns HTTP 400 with body exactly `{"error": "Missing hosts in request
body"}`; an unparseable body instead yields HTTP 500 (the `BadRequest`
raised by `get_json` is swallowed by the catch-all). -/
theorem c3_missing_hosts_400 (p : JsonVal → Except String JsonVal)
    (data : JsonVal)
    (h : data.truthy = false ∨ data.containsHosts = .ok false) :
    checkSsl p (some data) = resp400 ∧
    (checkSsl p none).status = 500 := by
  refine ⟨?_, rfl⟩
  rcases h with h | h
  · simp [checkSsl, checkSslT, h]
  · by_cases ht : data.truthy = false
    · simp [checkSsl, checkSslT, ht]
    · simp [checkSsl, checkSslT, ht, h]

/-- C3 witness: the empty-object body `{}` is rejected with the documented
400 response. -/
theorem c3_missing_hosts_400_witness :
    checkSsl (totalProbe (fun v => v)) (some (.obj [])) = resp400 ∧
    (checkSsl (totalProbe (fun v => v)) none).status = 500 :=
  c3_missing_hosts_400 (totalProbe (fun v => v)) (.obj []) (Or.inl rfl)

/-- C4: a body whose `hosts` field is a single string is normalized to a
one-element list before probing: the prober is invoked exactly once, on that
string, and the response is 200 with a one-element result list. -/
theorem c4_single_string_normalized (q : JsonVal → JsonVal) (s : String) :
    checkSsl (totalProbe q) (some (.obj [("hosts", .str s)])) =
      resp200 [q (.str s)] ∧
    (checkSslT (totalProbe q) (some (.obj [("hosts", .str s)]))).2.2 =
      [.str s] := by
  have h := checkSslT_total q [("hosts", .str s)] (.str s) rfl
  exact ⟨congrArg Prod.fst h, congrArg (fun x => x.2.2) h⟩

/-- C5 counterexample: the claim's "`ok` otherwise" ignores the spec's
`self_signed` case.  A certificate whose issuer equals its subject, with
`not_after = now + 100 days` and a 30-day threshold, is neither expired nor
expiring soon, yet classifies as `self_signed`, not `ok`. -/
theorem c5_classification_counterexample :
    ¬ (0 : Int) > selfSignedFar.notAfter ∧
    ¬ (selfSignedFar.notAfter - 0 < 2592000) ∧
    classify selfSignedFar 0 2592000 = Status.selfSigned ∧
    classify selfSignedFar 0 2592000 ≠ Status.ok := by
  refine ⟨by decide, by decide, rfl, by decide⟩

/-- C5 amended: classification is a pure function of
`(CertificateInfo, now, threshold)`: `expired` when now is past not-after,
otherwise `expiring_soon` when not-after minus now is below the threshold,
otherwise `self_signed` when issuer equals subject, and `ok` otherwise.  In
particular `not_after = now - 1 s` gives `expired`; with a 30-day (2592000 s)
threshold, `not_after = now + 10 days` gives `expiring_soon`, and
`not_after = now + 100 days` gives `ok` for a certificate whose issuer
differs from its subject. -/
theorem c5_classification (c : CertificateInfo) (now threshold : Int) :
    (now > c.notAfter → classify c now threshold = .expired) ∧
    (¬ now > c.notAfter → c.notAfter - now < threshold →
      classify c now threshold = .expiringSoon) ∧
    (¬ now > c.notAfter → ¬ c.notAfter - now < threshold →
      c.issuer = c.subject → classify c now threshold = .selfSigned) ∧
    (¬ now > c.notAfter → ¬ c.notAfter - now < threshold →
      c.issuer ≠ c.subject → classify c now threshold = .ok) ∧
    (c.notAfter = now - 1 → classify c now threshold = .expired) ∧
    (c.notAfter = now + 864000 → threshold = 2592000 →
      classify c now threshold = .expiringSoon) ∧
    (c.notAfter = now + 8640000 → threshold = 2592000 →
      c.issuer ≠ c.subject → classify c now threshold = .ok) := by
  unfold classify
  refine ⟨fun h => by simp [show c.notAfter < now by omega],
    fun h1 h2 => by simp [show ¬ c.notAfter < now by omega, h2],
    fun h1 h2 h3 => by simp [show ¬ c.notAfter < now by omega, h2, h3],
    fun h1 h2 h3 => by simp [show ¬ c.notAfter < now by omega, h2, h3],
    fun h => by simp [show c.notAfter < now by omega],
    fun h1 h2 => by
      simp [show ¬ c.notAfter < now by omega, show c.notAfter - now < threshold by omega],
    fun h1 h2 h3 => by
      simp [show ¬ c.notAfter < now by omega,
        show ¬ c.notAfter - now < threshold by omega, h3]⟩

/-- C5 witness: the three example certificates, classified at `now = 0` with
the default 30-day threshold. -/
theorem c5_classification_witness :
    classify ⟨"CN=a", "CN=i", 1, -100, -1, "x", [], "RSA", 2048⟩ 0 2592000 =
      Status.expired ∧
    classify ⟨"CN=a", "CN=i", 1, 0, 864000, "x", [], "RSA", 2048⟩ 0 2592000 =
      Status.expiringSoon ∧
    classify ⟨"CN=a", "CN=i", 1, 0, 8640000, "x", [], "RSA", 2048⟩ 0 2592000 =
      Status.ok :=
  ⟨(c5_classification ⟨"CN=a", "CN=i", 1, -100, -1, "x", [], "RSA", 2048⟩ 0
      2592000).2.2.2.2.1 (by decide),
   (c5_classification ⟨"CN=a", "CN=i", 1, 0, 864000, "x", [], "RSA", 2048⟩ 0
      2592000).2.2.2.2.2.1 (by decide) rfl,
   (c5_classification ⟨"CN=a", "CN=i", 1, 0, 8640000, "x", [], "RSA", 2048⟩ 0
      2592000).2.2.2.2.2.2 (by decide) rfl (by decide)⟩

/-- C6: every exception raised while handling a request is answered with HTTP
status 500 and body exactly `{"success": false, "error": <message>}`.  The
handler has precisely four raise sites, enumerated conjunct by conjunct: the
`BadRequest` of `get_json` on an unparseable body, the `TypeError` of
`'hosts' in data` on a truthy non-container, the `TypeError` of
`data['hosts']` on a truthy non-dict container, and an exception escaping
`get_certificate_info`; each produces `resp500` of the raised message.  With
the spec-modelled prober — which returns every per-host failure as data — a
well-formed request (object body with a `hosts` key) returns 200, so an
individual host failure is never reported through the 500 channel. -/
theorem c6_internal_failures_500 (p : JsonVal → Except String JsonVal) :
    checkSsl p none = resp500 badRequestMsg ∧
    (∀ data m, ¬ data.truthy = false → data.containsHosts = .error m →
      checkSsl p (some data) = resp500 m) ∧
    (∀ data m, ¬ data.truthy = false → data.containsHosts = .ok true →
      data.getHostsItem = .error m → checkSsl p (some data) = resp500 m) ∧
    (∀ data hv rs probed m, ¬ data.truthy = false →
      data.containsHosts = .ok true → data.getHostsItem = .ok hv →
      probeAll p (normalizeHosts hv) = (rs, probed, some m) →
      checkSsl p (some data) = resp500 m) ∧
    (∀ (q : JsonVal → JsonVal) (kvs : List (String × JsonVal)) (hv : JsonVal),
      getKey kvs "hosts" = some hv →
      (checkSsl (totalProbe q) (some (.obj kvs))).status = 200) := by
  refine ⟨rfl, ?_, ?_, ?_, ?_⟩
  · intro data m ht hC
    simp [checkSsl, checkSslT, ht, hC]
  · intro data m ht hC hI
    simp [checkSsl, checkSslT, ht, hC, hI]
  · intro data hv rs probed m ht hC hI hP
    simp [checkSsl, checkSslT, ht, hC, hI, hP]
  · intro q kvs hv hk
    show (checkSslT _ _).1.status = 200
    rw [checkSslT_total q kvs hv hk]
    rfl

/-- C6 witness: an unparseable body is answered 500 with the caught
`BadRequest` message; a prober exception ("boom") on a well-formed request is
answered 500 with that message and `success: false`; and the same request
under the total prober returns 200. -/
theorem c6_internal_failures_500_witness :
    checkSsl (totalProbe (fun v => v)) none = resp500 badRequestMsg ∧
    checkSsl (fun _ => .error "boom")
      (some (.obj [("hosts", .arr [.str "a"])])) = resp500 "boom" ∧
    (checkSsl (totalProbe (fun v => v))
      (some (.obj [("hosts", .arr [.str "a"])]))).status = 200 :=
  ⟨(c6_internal_failures_500 (totalProbe (fun v => v))).1,
   (c6_internal_failures_500 (fun _ => .error "boom")).2.2.2.1
     (.obj [("hosts", .arr [.str "a"])]) (.arr [.str "a"]) [] [.str "a"]
     "boom" (by decide) rfl rfl rfl,
   (c6_internal_failures_500 (totalProbe (fun v => v))).2.2.2.2 (fun v => v)
     [("hosts", .arr [.str "a"])] (.arr [.str "a"]) rfl⟩

/-- C7: a request answered with HTTP 400 is rejected before any probing: the
`SSLChecker()` construction line is never reached and no host is passed to
`get_certificate_info`. -/
theorem c7_400_fails_fast (p : JsonVal → Except String JsonVal)
    (body : Option JsonVal) (h : (checkSsl p body).status = 400) :
    (checkSslT p body).2.1 = false ∧ (checkSslT p body).2.2 = [] := by
  cases body with
  | none => simp [checkSsl, checkSslT, resp500] at h
  | some data =>
    by_cases ht : data.truthy = false
    · simp [checkSslT, ht]
    · rcases hC : data.containsHosts with m | b
      · simp [checkSsl, checkSslT, ht, hC, resp500] at h
      · cases b with
        | false => simp [checkSslT, ht, hC]
        | true =>
          rcases hI : data.getHostsItem with m | hv2
          · simp [checkSsl, checkSslT, ht, hC, hI, resp500] at h
          · rcases hP : probeAll p (normalizeHosts hv2) with ⟨rs, probed, err⟩
            cases err with
            | none => simp [checkSsl, checkSslT, ht, hC, hI, hP, resp200] at h
            | some m => simp [checkSsl, checkSslT, ht, hC, hI, hP, resp500] at h

/-- C7 witness: the empty-object body is answered 400; no checker was
constructed and no host was probed. -/
theorem c7_400_fails_fast_witness :
    (checkSsl (totalProbe (fun v => v)) (some (.obj []))).status = 400 ∧
    (checkSslT (totalProbe (fun v => v)) (some (.obj []))).2.1 = false ∧
    (checkSslT (totalProbe (fun v => v)) (some (.obj []))).2.2 = [] :=
  ⟨rfl, c7_400_fails_fast (totalProbe (fun v => v)) (some (.obj [])) rfl⟩

/-- C8: the endpoint is stateless across requests: serving any sequence of
requests decomposes pointwise, so the response to a request is `checkSsl` of
that request alone, unchanged by the requests served before or after it, and
it alters none of their responses. -/
theorem c8_stateless_across_requests (p : JsonVal → Except String JsonVal)
    (pre post : List (Option JsonVal)) (b : Option JsonVal) :
    serveAll p (pre ++ b :: post) =
      serveAll p pre ++ checkSsl p b :: serveAll p post := by
  induction pre with
  | nil => rfl
  | cons x xs ih => simp [serveAll, ih]

/-- C10: the body `{"hosts": []}` is accepted: HTTP 200 with body exactly
`{"success": true, "results": []}`, and no host is ever passed to the
prober. -/
theorem c10_empty_hosts_list (p : JsonVal → Except String JsonVal) :
    checkSsl p (some (.obj [("hosts", .arr [])])) = resp200 [] ∧
    (checkSsl p (some (.obj [("hosts", .arr [])]))).status = 200 ∧
    (checkSslT p (some (.obj [("hosts", .arr [])]))).2.2 = [] :=
  ⟨rfl, rfl, rfl⟩
